import Mathlib

/-!
Verification of the `personal_practices` repository.

The repository holds two unrelated exercises:

* `BD1/main.py` — a straight-line sqlite3 script ("RecordStore"): it opens
  `example.db`, runs `CREATE TABLE IF NOT EXISTS users (id INTEGER PRIMARY
  KEY AUTOINCREMENT, name TEXT NOT NULL, age INTEGER NOT NULL, rol TEXT NOT
  NULL)`, bulk-inserts a hard-coded batch of four `(name, age, rol)` tuples
  with `executemany`, commits, fetches every row with `SELECT * FROM users`,
  prints a header and one formatted line per row, and finally calls
  `connection.close()`.  The script has no `try`/`finally` and no context
  manager: an exception raised by any statement aborts the script and skips
  every later statement, including the final `connection.close()`.

* `personal-practise-API/shape/nivel1/circle.py` — a `Circle` class whose
  `_radius` property getter and setter reference `self._radius`, which
  resolves to the property itself; the constructor assigns `self._radius`,
  entering the setter.  The setter raises `ValueError` when `value < 0` and
  otherwise re-assigns `self._radius`, re-entering itself without bound.

This file embeds both pieces shallowly and proves the specification claims
about them.
-/

/-! ## Data model of the `users` table (BD1/main.py) -/

/-- One row of the `users` table: `id` is assigned by the store,
`name`, `age`, `rol` come from the insert. The source column is spelled
`rol` (the `CREATE TABLE` statement and the `INSERT` column list both
write `rol`). -/
structure Row where
  id : Nat
  name : String
  age : Int
  rol : String
deriving Repr, DecidableEq

/-- The `users` table: its rows in insertion (rowid) order, and the
`AUTOINCREMENT` sequence value (the largest id handed out so far, as kept
by sqlite in `sqlite_sequence`; `0` for a fresh table). -/
structure Table where
  rows : List Row
  seq : Nat
deriving Repr, DecidableEq

/-- The file-backed store.  The script touches a single table, `users`;
`none` means the table does not exist yet (fresh or pre-schema file). -/
structure Store where
  users : Option Table
deriving Repr, DecidableEq

/-- A store whose backing file was just created: no `users` table. -/
def emptyStore : Store := { users := none }

/-- The rows of the `users` table, `[]` when the table does not exist. -/
def rowsOf (s : Store) : List Row :=
  match s.users with
  | some t => t.rows
  | none => []

/-- The `AUTOINCREMENT` sequence value, `0` when the table does not exist. -/
def seqOf (s : Store) : Nat :=
  match s.users with
  | some t => t.seq
  | none => 0

/-! ## Schema (the `CREATE TABLE` statement) -/

/-- One column definition of the DDL statement. -/
structure ColumnDef where
  name : String
  type : String
  notNull : Bool
  primaryKey : Bool
  autoincrement : Bool
deriving Repr, DecidableEq

/-- The column list of the source statement
`CREATE TABLE IF NOT EXISTS users (id INTEGER PRIMARY KEY AUTOINCREMENT,
name TEXT NOT NULL, age INTEGER NOT NULL, rol TEXT NOT NULL)`,
transcribed column by column. -/
def usersColumns : List ColumnDef :=
  [ { name := "id", type := "INTEGER", notNull := false,
      primaryKey := true, autoincrement := true },
    { name := "name", type := "TEXT", notNull := true,
      primaryKey := false, autoincrement := false },
    { name := "age", type := "INTEGER", notNull := true,
      primaryKey := false, autoincrement := false },
    { name := "rol", type := "TEXT", notNull := true,
      primaryKey := false, autoincrement := false } ]

/-! ## Operations of the script -/

/-- `CREATE TABLE IF NOT EXISTS users (...)`: create the table fresh when
absent, leave the store untouched when it already exists. -/
def ensureSchema (s : Store) : Store :=
  match s.users with
  | some _ => s
  | none => { users := some { rows := [], seq := 0 } }

/-- The hard-coded seed batch `user_data` of the source, in source order. -/
def user_data : List (String × Int × String) :=
  [ ("Basir", 15, "normal"),
    ("Ana", 25, "admin"),
    ("Luis", 35, "normal"),
    ("Maria", 28, "admin") ]

/-- One `INSERT INTO users (name, age, rol) VALUES (?, ?, ?)`:
`AUTOINCREMENT` assigns id `seq + 1` and bumps the sequence. -/
def insertRow (t : Table) (d : String × Int × String) : Table :=
  { rows := t.rows ++ [{ id := t.seq + 1, name := d.1, age := d.2.1, rol := d.2.2 }],
    seq := t.seq + 1 }

/-- `cursor.executemany(..., user_data)` followed by `connection.commit()`:
insert the four seed tuples in order.  Called by the script only after
`ensureSchema`, so the table exists; on a store without the table the
statement would fail, which the fault environment below models. -/
def seedRecords (s : Store) : Store :=
  match s.users with
  | some t => { users := some (user_data.foldl insertRow t) }
  | none => s

/-- `SELECT * FROM users` + `fetchall()`: every row, in rowid (insertion)
order — the query has no ORDER BY, so sqlite's natural scan order applies. -/
def fetchAll (s : Store) : List Row :=
  rowsOf s

/-- The header line printed before the rows. -/
def headerLine : String := "------ Usuarios en la base de datos ------"

/-- `print(f"User -> {user[1]} | Age -> {user[2]} | Rol -> {user[3]}")`:
index 1 is `name`, 2 is `age`, 3 is `rol` in the `SELECT *` tuple. -/
def renderLine (r : Row) : String :=
  "User -> " ++ r.name ++ " | Age -> " ++ toString r.age ++ " | Rol -> " ++ r.rol

/-- The full standard output of the render phase: the header, then one
line per fetched row, in fetch order. -/
def render (rows : List Row) : List String :=
  headerLine :: rows.map renderLine

/-! ## The run, with explicit failure paths

The script is one top-level sequence with no exception handling.  A fault
environment says which statement raises (storage-level failures such as a
read-only file); an exception aborts the script, so every later statement
— including the final `connection.close()` — is skipped.  `executemany`
failing leaves the open transaction uncommitted, and the process exits
without committing, so the durable store keeps none of that run's rows
(`CREATE TABLE` is DDL and is durable on its own). -/

/-- Which step of the run raises, if any. -/
structure FaultEnv where
  ensureSchemaFails : Bool
  seedFails : Bool
  fetchFails : Bool
deriving Repr, DecidableEq

/-- The fault-free environment: every statement succeeds. -/
def noFault : FaultEnv := { ensureSchemaFails := false, seedFails := false, fetchFails := false }

/-- Observable outcome of one run. -/
structure RunResult where
  /-- durable store contents when the process exits -/
  finalStore : Store
  /-- lines written to standard output -/
  output : List String
  /-- whether the render phase ran -/
  rendered : Bool
  /-- how many times `connection.close()` executed -/
  closeCount : Nat
  /-- whether the run died on an unhandled exception (non-zero exit) -/
  errored : Bool
deriving Repr, DecidableEq

/-- The whole script, statement by statement.  Each `if` is an exception
point: when the statement raises, the script terminates there and nothing
after it runs (no `try`/`finally` in the source). -/
def runScript (env : FaultEnv) (s : Store) : RunResult :=
  -- connection = sqlite3.connect('example.db'); cursor = connection.cursor()
  if env.ensureSchemaFails then
    -- cursor.execute(CREATE TABLE ...) raises: script aborts here
    { finalStore := s, output := [], rendered := false, closeCount := 0, errored := true }
  else
    let s1 := ensureSchema s
    if env.seedFails then
      -- executemany raises: transaction never committed, script aborts
      { finalStore := s1, output := [], rendered := false, closeCount := 0, errored := true }
    else
      let s2 := seedRecords s1
      if env.fetchFails then
        -- SELECT raises after the committed insert: script aborts
        { finalStore := s2, output := [], rendered := false, closeCount := 0, errored := true }
      else
        let out := render (fetchAll s2)
        -- print header and rows, then connection.close()
        { finalStore := s2, output := out, rendered := true, closeCount := 1, errored := false }

/-! ## The Circle class (shape/nivel1/circle.py)

`Circle.__init__` runs `self._radius = radius`.  Because `_radius` is a
class-level property (a data descriptor), the assignment enters the
property setter.  The setter raises `ValueError("Ingresá un numero
positivo gil")` when `value < 0`; otherwise it runs `self._radius = value`,
which enters the same setter again, with no base case.  We embed the
setter with explicit fuel (Python's recursion limit): running out of fuel
models the unbounded re-entry (Python's `RecursionError`). -/

/-- How one call into the `_radius` setter can end. -/
inductive SetterResult where
  /-- the setter raised `ValueError` (negative value) -/
  | valueError : SetterResult
  /-- the self-assignment re-entered the setter past the given depth
  (the unbounded recursion; `RecursionError` in Python) -/
  | outOfFuel : SetterResult
  /-- the setter returned normally, leaving the attribute set -/
  | ok : SetterResult
deriving Repr, DecidableEq

/-- The `_radius` setter of `Circle`, with `fuel` remaining re-entries
allowed.  The radius is a Python float; the only operation performed on it
is the comparison `value < 0`, modelled over `ℚ` (every literal in the
source, `-5.0` included, is exact). -/
def radiusSetter (fuel : Nat) (value : ℚ) : SetterResult :=
  match fuel with
  | 0 => .outOfFuel
  | f + 1 =>
    if value < 0 then .valueError
    else radiusSetter f value  -- self._radius = value re-enters the setter

/-- `Circle.__init__`: the body is the single assignment
`self._radius = radius`, i.e. one call into the setter. -/
def circleInit (fuel : Nat) (radius : ℚ) : SetterResult :=
  radiusSetter fuel radius

/-! ## Helper lemmas -/

/-- Unfolding the seed batch fold: the four inserts append the four seed
rows, with ids `seq+1 .. seq+4`, to whatever rows the table held. -/
def seedRowsFrom (n : Nat) : List Row :=
  [ { id := n + 1, name := "Basir", age := 15, rol := "normal" },
    { id := n + 2, name := "Ana", age := 25, rol := "admin" },
    { id := n + 3, name := "Luis", age := 35, rol := "normal" },
    { id := n + 4, name := "Maria", age := 28, rol := "admin" } ]

lemma seedRecords_table (t : Table) :
    seedRecords { users := some t } =
      { users := some { rows := t.rows ++ seedRowsFrom t.seq, seq := t.seq + 4 } } := by
  simp [seedRecords, user_data, insertRow, seedRowsFrom, List.foldl]

lemma rowsOf_seed_ensure (s : Store) :
    rowsOf (seedRecords (ensureSchema s)) = rowsOf s ++ seedRowsFrom (seqOf s) := by
  cases s with
  | mk users =>
    cases users with
    | none => simp [ensureSchema, rowsOf, seqOf, seedRecords_table]
    | some t => simp [ensureSchema, rowsOf, seqOf, seedRecords_table]

lemma ensureSchema_existing (s : Store) (t : Table) (h : s.users = some t) :
    ensureSchema s = s := by
  cases s with
  | mk users => cases users with
    | none => cases h
    | some t0 => rfl

lemma rowsOf_ensureSchema (s : Store) : rowsOf (ensureSchema s) = rowsOf s := by
  cases s with
  | mk users => cases users <;> rfl

/-- The store after one fault-free run from the fresh (no-table) store. -/
def runOnce : Store := (runScript noFault emptyStore).finalStore

/-- The store after a second fault-free run against the same file. -/
def runTwice : Store := (runScript noFault runOnce).finalStore

/-! ## Claims -/

/-- C1 (counterexample): the claim says the opened connection is released
exactly once on every exit path.  On the run where the `CREATE TABLE`
statement raises, `connection.close()` executes zero times: the script has
no `try`/`finally`, so the unhandled exception skips the close call. -/
theorem c1_close_skipped_on_failure :
    (runScript { ensureSchemaFails := true, seedFails := false, fetchFails := false }
        emptyStore).closeCount = 0 ∧
    (runScript { ensureSchemaFails := true, seedFails := false, fetchFails := false }
        emptyStore).errored = true := by
  exact ⟨rfl, rfl⟩

/-- C1 (amended): on the fault-free path the connection is released
exactly once, after Render; when EnsureSchema, SeedRecords or FetchAll
raises, Render is not attempted — but the connection is not released by
the program either (the close statement is skipped along with everything
after the raising statement). -/
theorem c1_close_and_render_paths (env : FaultEnv) (s : Store) :
    ((runScript env s).errored = false →
      (runScript env s).closeCount = 1 ∧ (runScript env s).rendered = true) ∧
    ((runScript env s).errored = true →
      (runScript env s).rendered = false ∧ (runScript env s).closeCount = 0) := by
  rcases env with ⟨e, d, f⟩
  cases e <;> cases d <;> cases f <;> simp [runScript]

/-- C1 witness: the amended theorem applied to the fault-free run from the
fresh store. -/
theorem c1_close_and_render_paths_witness :
    (runScript noFault emptyStore).closeCount = 1 ∧
    (runScript noFault emptyStore).rendered = true :=
  (c1_close_and_render_paths noFault emptyStore).1 rfl

/-- C2: after one fault-free run against the empty store, FetchAll returns
exactly the four seed records, with ids 1, 2, 3, 4 in batch order. -/
theorem c2_seed_reproducibility :
    fetchAll runOnce =
      [ { id := 1, name := "Basir", age := 15, rol := "normal" },
        { id := 2, name := "Ana", age := 25, rol := "admin" },
        { id := 3, name := "Luis", age := 35, rol := "normal" },
        { id := 4, name := "Maria", age := 28, rol := "admin" } ] := by
  rfl

/-- C3: after two consecutive fault-free runs from the empty store,
FetchAll returns eight records with ids 1..8, and rows 5..8 repeat the
(name, age, rol) of rows 1..4 in order — the seed insert is unconditional. -/
theorem c3_duplication_on_repeat_run :
    (fetchAll runTwice).map Row.id = [1, 2, 3, 4, 5, 6, 7, 8] ∧
    ((fetchAll runTwice).drop 4).map (fun r => (r.name, r.age, r.rol)) =
      ((fetchAll runTwice).take 4).map (fun r => (r.name, r.age, r.rol)) := by
  exact ⟨rfl, rfl⟩

/-- C4: rendering prints the exact header line, then one line per fetched
record in order, formatted `User -> n | Age -> a | Rol -> r`; for the
seed record ("Ana", 25, "admin") the line is exactly
`User -> Ana | Age -> 25 | Rol -> admin`. -/
theorem c4_render_format :
    (∀ rows : List Row, render rows = headerLine :: rows.map renderLine) ∧
    headerLine = "------ Usuarios en la base de datos ------" ∧
    renderLine { id := 2, name := "Ana", age := 25, rol := "admin" } =
      "User -> Ana | Age -> 25 | Rol -> admin" ∧
    (runScript noFault emptyStore).output =
      [ "------ Usuarios en la base de datos ------",
        "User -> Basir | Age -> 15 | Rol -> normal",
        "User -> Ana | Age -> 25 | Rol -> admin",
        "User -> Luis | Age -> 35 | Rol -> normal",
        "User -> Maria | Age -> 28 | Rol -> admin" ] := by
  exact ⟨fun rows => rfl, rfl, rfl, rfl⟩

/-- C5 (counterexample): the claim says the fourth column is named `role`;
in the source DDL it is named `rol`, and no column is named `role`. -/
theorem c5_fourth_column_is_rol :
    (usersColumns.map ColumnDef.name).getD 3 "" = "rol" ∧
    (usersColumns.map ColumnDef.name).getD 3 "" ≠ "role" ∧
    "role" ∉ usersColumns.map ColumnDef.name := by
  decide

/-- C5 (amended): the single table is `users` and its columns are exactly
`id INTEGER PRIMARY KEY AUTOINCREMENT`, `name TEXT NOT NULL`,
`age INTEGER NOT NULL`, `rol TEXT NOT NULL` — the fourth column is named
`rol`, and all three non-id columns reject null. -/
theorem c5_schema_layout :
    usersColumns.map ColumnDef.name = ["id", "name", "age", "rol"] ∧
    usersColumns.map ColumnDef.type = ["INTEGER", "TEXT", "INTEGER", "TEXT"] ∧
    usersColumns.map ColumnDef.notNull = [false, true, true, true] ∧
    usersColumns.map ColumnDef.primaryKey = [true, false, false, false] ∧
    usersColumns.map ColumnDef.autoincrement = [true, false, false, false] := by
  decide

/-- C6: EnsureSchema is idempotent — running it twice equals running it
once, and on a store where the table already exists it changes nothing
(no error, rows untouched). -/
theorem c6_ensureSchema_idempotent (s : Store) :
    ensureSchema (ensureSchema s) = ensureSchema s ∧
    (∀ t : Table, s.users = some t → ensureSchema s = s) := by
  refine ⟨?_, fun t h => ensureSchema_existing s t h⟩
  cases s with
  | mk users => cases users <;> rfl

/-- A concrete store that already holds the table and one row. -/
def oneRowStore : Store :=
  { users := some { rows := [{ id := 1, name := "Ana", age := 25, rol := "admin" }], seq := 1 } }

/-- C6 witness: idempotence and no-op at the concrete one-row store. -/
theorem c6_ensureSchema_idempotent_witness :
    ensureSchema (ensureSchema oneRowStore) = ensureSchema oneRowStore ∧
    ensureSchema oneRowStore = oneRowStore :=
  ⟨(c6_ensureSchema_idempotent oneRowStore).1,
   (c6_ensureSchema_idempotent oneRowStore).2 _ rfl⟩

/-- C7: the seed insert is atomic at the commit boundary — after any run,
successful or aborted at any statement, the durable rows are either the
pre-run rows unchanged or the pre-run rows plus all four seed records of
the run; never a strict subset of the batch. -/
theorem c7_seed_atomicity (env : FaultEnv) (s : Store) :
    rowsOf (runScript env s).finalStore = rowsOf s ∨
    rowsOf (runScript env s).finalStore = rowsOf s ++ seedRowsFrom (seqOf s) := by
  rcases env with ⟨e, d, f⟩
  cases e <;> cases d <;> cases f <;>
    first
      | (left; simp [runScript, rowsOf_ensureSchema]; done)
      | (right; simp [runScript, rowsOf_seed_ensure]; done)

/-- C8: a run never updates or deletes pre-existing records — on every
execution path the final rows are the pre-run rows followed by whatever
the run appended. -/
theorem c8_run_only_appends (env : FaultEnv) (s : Store) :
    ∃ appended : List Row,
      rowsOf (runScript env s).finalStore = rowsOf s ++ appended := by
  rcases env with ⟨e, d, f⟩
  cases e <;> cases d <;> cases f <;>
    first
      | (refine ⟨[], ?_⟩; simp [runScript, rowsOf_ensureSchema]; done)
      | (refine ⟨seedRowsFrom (seqOf s), ?_⟩; simp [runScript, rowsOf_seed_ensure]; done)

/-- C9 (counterexample): the claim says constructing a Circle recurses
infinitely for every radius value.  At the file's own example radius
`-5.0`, the setter instead raises `ValueError` on its first entry, without
re-entering itself at all. -/
theorem c9_negative_radius_raises :
    circleInit 1 (-5) = SetterResult.valueError ∧
    circleInit 1 (-5) ≠ SetterResult.outOfFuel := by
  refine ⟨?_, ?_⟩ <;> simp [circleInit, radiusSetter, show (-5 : ℚ) < 0 by norm_num]

/-- C9 (amended): constructing a Circle never terminates normally with an
initialized instance, for any radius: a non-negative radius makes the
setter re-enter itself past every finite depth (infinite recursion), and a
negative radius makes it raise `ValueError` on entry. -/
theorem c9_circle_init_never_completes (fuel : Nat) (radius : ℚ) :
    circleInit fuel radius ≠ SetterResult.ok ∧
    (0 ≤ radius → circleInit fuel radius = SetterResult.outOfFuel) ∧
    (radius < 0 → circleInit (fuel + 1) radius = SetterResult.valueError) := by
  induction fuel with
  | zero =>
    refine ⟨by simp [circleInit, radiusSetter], fun _ => rfl, fun h => ?_⟩
    simp [circleInit, radiusSetter, h]
  | succ f ih =>
    refine ⟨?_, fun h => ?_, fun h => ?_⟩
    · by_cases h : radius < 0
      · simp [circleInit, radiusSetter, h]
      · simpa [circleInit, radiusSetter, h] using ih.1
    · have h' : ¬ radius < 0 := not_lt.mpr h
      simpa [circleInit, radiusSetter, h'] using ih.2.1 h
    · simp [circleInit, radiusSetter, h]

/-- C9 witness: the amended theorem at radius 3 (runs out of any finite
fuel) and radius -5 (raises on entry). -/
theorem c9_circle_init_never_completes_witness :
    circleInit 5 3 ≠ SetterResult.ok ∧
    circleInit 5 3 = SetterResult.outOfFuel ∧
    circleInit 6 (-5) = SetterResult.valueError :=
  ⟨(c9_circle_init_never_completes 5 3).1,
   (c9_circle_init_never_completes 5 3).2.1 (by norm_num),
   (c9_circle_init_never_completes 5 (-5)).2.2 (by norm_num)⟩

/-- C10: the run is deterministic — it reads no input besides the store,
so two executions from equal initial store contents produce equal standard
output and equal final store contents. -/
theorem c10_run_deterministic (s₁ s₂ : Store) (h : s₁ = s₂) :
    (runScript noFault s₁).output = (runScript noFault s₂).output ∧
    (runScript noFault s₁).finalStore = (runScript noFault s₂).finalStore := by
  subst h
  exact ⟨rfl, rfl⟩

/-- C10 witness: determinism instantiated at the fresh store. -/
theorem c10_run_deterministic_witness :
    (runScript noFault emptyStore).output = (runScript noFault emptyStore).output ∧
    (runScript noFault emptyStore).finalStore = (runScript noFault emptyStore).finalStore :=
  c10_run_deterministic emptyStore emptyStore rfl
